import Mathlib

/-!
Shallow embedding of `src/example.ipynb` ("Numerical solution of pipe problems").

Floating-point arithmetic is modelled over the reals: `numpy.log` is `Real.log`,
`numpy.log10` is `Real.logb 10`, `x ** 0.5` is `Real.sqrt x`, `np.pi` is `Real.pi`,
and `x ** (-2)` is `x ^ (-2 : ℤ)`.  The external root-finding primitive
`scipy.optimize.root_scalar` (out of scope per the spec, consumed not
reimplemented) is modelled as an abstract parameter of type `RootSolve`
receiving the residual function and the initial guess `x0` and returning
`sol['root']`.
-/

/-- Source: `G = 9.81`. -/
noncomputable def G : ℝ := 9.81

/-- Source: `RHO = 1000` (water density). -/
noncomputable def RHO : ℝ := 1000

/-- Source: `MU = 1e-3` (water dynamic viscosity). -/
noncomputable def MU : ℝ := 1e-3

/-- Source `colebrook_white(friction_factor, reynolds_number, rel_roughness)`:
`return 1/f**0.5 + 2*np.log10(rel_eps/3.7 + 2.51/(re*f**0.5))`. -/
noncomputable def colebrook_white (friction_factor reynolds_number rel_roughness : ℝ) : ℝ :=
  1 / Real.sqrt friction_factor +
    2 * Real.logb 10 (rel_roughness / 3.7 + 2.51 / (reynolds_number * Real.sqrt friction_factor))

/-- Source `colebrook_white_complete_turbulence(rel_roughness)`:
`return (-2*np.log(rel_eps/3.7))**(-2)`.  Note the source calls `np.log`
(the natural logarithm), not `np.log10`. -/
noncomputable def colebrook_white_complete_turbulence (rel_roughness : ℝ) : ℝ :=
  (-2 * Real.log (rel_roughness / 3.7)) ^ (-2 : ℤ)

/-- Model of the external `scipy.optimize.root_scalar` primitive: it receives the
residual function (with the extra `args` already applied) and the initial guess
`x0`, and returns the scalar `sol['root']`. -/
abbrev RootSolve : Type := (ℝ → ℝ) → ℝ → ℝ

/-- Source `friction_factor(reynolds_number, rel_roughness)`:
`f_complete = colebrook_white_complete_turbulence(rel_eps)`;
`sol = root_scalar(colebrook_white, args=(re, rel_eps), x0=f_complete)`;
`return sol['root']`.  There is no input validation of any kind in the source. -/
noncomputable def friction_factor (rootSolve : RootSolve)
    (reynolds_number rel_roughness : ℝ) : ℝ :=
  rootSolve (fun f => colebrook_white f reynolds_number rel_roughness)
    (colebrook_white_complete_turbulence rel_roughness)

/-- Modelled from the spec: the `InvalidInput` error kind of spec §7.  No such
error (nor any validation) exists anywhere in the source. -/
inductive InvalidInput where
  | nonPositiveReynolds
  | nonPositiveRoughness
deriving DecidableEq

/-- Modelled from the spec: `FrictionFactorSolver.solve` as spec §7 describes it,
raising `InvalidInput` for `Re ≤ 0` or `rel_eps ≤ 0` before attempting a solve.
Used only to contrast with the source `friction_factor`, which has no check. -/
noncomputable def friction_factor_validated (rootSolve : RootSolve)
    (reynolds_number rel_roughness : ℝ) : Except InvalidInput ℝ :=
  if reynolds_number ≤ 0 then .error .nonPositiveReynolds
  else if rel_roughness ≤ 0 then .error .nonPositiveRoughness
  else .ok (friction_factor rootSolve reynolds_number rel_roughness)

/-- Source: `p_1 = 50`. -/
noncomputable def p_1 : ℝ := 50

/-- Source: `area_1 = 1e-2 ** 2`. -/
noncomputable def area_1 : ℝ := (1e-2) ^ 2

/-- Source: `z_1 = 0`. -/
noncomputable def z_1 : ℝ := 0

/-- Source `head_1(Q)`: `v = (Q/area_1)**2; return p_1/(RHO*G) + (v)**2/(2*G) + z_1`.
The local `v` (which holds `(Q/area_1)**2`, not `Q/area_1`) is inlined. -/
noncomputable def head_1 (Q : ℝ) : ℝ :=
  p_1 / (RHO * G) + ((Q / area_1) ^ 2) ^ 2 / (2 * G) + z_1

/-- Source: `p_2 = 00`. -/
noncomputable def p_2 : ℝ := 0

/-- Source: `area_2 = 1e-2 ** 2`. -/
noncomputable def area_2 : ℝ := (1e-2) ^ 2

/-- Source: `z_2 = 0`. -/
noncomputable def z_2 : ℝ := 0

/-- Source `head_2(Q)`: `v = (Q/area_2)**2; return p_2/(RHO*G) + (v)**2/(2*G) + z_2`. -/
noncomputable def head_2 (Q : ℝ) : ℝ :=
  p_2 / (RHO * G) + ((Q / area_2) ^ 2) ^ 2 / (2 * G) + z_2

/-- Source: `eps = 1e-3` (pipe absolute roughness). -/
noncomputable def eps : ℝ := 1e-3

/-- Source: `d_pipe = 10e-2`. -/
noncomputable def d_pipe : ℝ := 10e-2

/-- Source: `rel_eps = 1e-3/d_pipe` (the pipe cell reuses the name `rel_eps`;
suffixed `_pipe` here to keep the earlier demo value distinct). -/
noncomputable def rel_eps_pipe : ℝ := 1e-3 / d_pipe

/-- Source: `length = 1`. -/
noncomputable def length : ℝ := 1

/-- Source: `area_pipe = np.pi*(d_pipe/2)**2`. -/
noncomputable def area_pipe : ℝ := Real.pi * (d_pipe / 2) ^ 2

/-- Source local `v = (Q/area_pipe)**2` inside `head_f` (again the name `v`
holds the square of the velocity, not the velocity). -/
noncomputable def head_f_v (Q : ℝ) : ℝ := (Q / area_pipe) ^ 2

/-- Source local `re = RHO*v*d_pipe / MU` inside `head_f`. -/
noncomputable def head_f_re (Q : ℝ) : ℝ := RHO * head_f_v Q * d_pipe / MU

/-- Source `head_f(Q)`: `f = friction_factor(re, rel_eps);
return length/d_pipe * v**2/(2*G)*f`. -/
noncomputable def head_f (rootSolve : RootSolve) (Q : ℝ) : ℝ :=
  length / d_pipe * (head_f_v Q) ^ 2 / (2 * G) *
    friction_factor rootSolve (head_f_re Q) rel_eps_pipe

/-- Source `energy_equation(Q)`: `return head_1(Q) - head_2(Q) - head_f(Q)`. -/
noncomputable def energy_equation (rootSolve : RootSolve) (Q : ℝ) : ℝ :=
  head_1 Q - head_2 Q - head_f rootSolve Q

/-! ### Numeric helper lemmas -/

lemma log_74_gt_one : 1 < Real.log 74 := by
  rw [Real.lt_log_iff_exp_lt (by norm_num)]
  calc Real.exp 1 < 2.7182818286 := Real.exp_one_lt_d9
    _ < 74 := by norm_num

lemma log_10_gt_two : 2 < Real.log 10 := by
  rw [Real.lt_log_iff_exp_lt (by norm_num)]
  have h2 : Real.exp 2 = Real.exp 1 * Real.exp 1 := by
    rw [← Real.exp_add]; norm_num
  have h1 := Real.exp_one_lt_d9
  have h0 := Real.exp_pos 1
  nlinarith

lemma zpow_neg_two_eq (x : ℝ) : x ^ (-2 : ℤ) = (x ^ 2)⁻¹ := by
  rw [zpow_neg, show ((2 : ℤ)) = ((2 : ℕ) : ℤ) from rfl, zpow_natCast]

lemma inv_sq_lt_inv_sq (a b : ℝ) (hb : 0 < b) (hab : b < a) : (a ^ 2)⁻¹ < (b ^ 2)⁻¹ := by
  have h : b ^ 2 < a ^ 2 := by nlinarith
  exact inv_strictAnti₀ (by positivity) h

/-- Evaluating the Colebrook-White residual at a non-positive trial friction
factor: `Real.sqrt f = 0`, so (with the Mathlib conventions `1/0 = 0` and
`2.51/0 = 0`) the expression collapses to `2*log10(rel_eps/3.7)` — no branch of
the source distinguishes this case. -/
lemma colebrook_white_of_nonpos (f re rel_eps : ℝ) (hf : f ≤ 0) :
    colebrook_white f re rel_eps = 2 * Real.logb 10 (rel_eps / 3.7) := by
  unfold colebrook_white
  rw [Real.sqrt_eq_zero_of_nonpos hf, mul_zero, div_zero, div_zero, add_zero, zero_add]

/-- The complete-turbulence seed substituted back into the Colebrook-White
residual at `Re = 1e12` leaves a residual greater than `1` for every
`rel_eps ∈ (0, 1/20]`: the seed is built with the natural logarithm while the
residual uses the base-10 logarithm, so the two do not cancel. -/
lemma seed_residual_gt_one (rel_eps : ℝ) (h0 : 0 < rel_eps) (h1 : rel_eps ≤ 1 / 20) :
    1 < colebrook_white (colebrook_white_complete_turbulence rel_eps) 1e12 rel_eps := by
  have h37 : (0 : ℝ) < 3.7 := by norm_num
  have hxpos : 0 < rel_eps / 3.7 := div_pos h0 h37
  have hxle : rel_eps / 3.7 ≤ 1 / 74 := by
    rw [div_le_div_iff₀ h37 (by norm_num)]
    nlinarith
  have hlogx : Real.log (rel_eps / 3.7) ≤ -Real.log 74 := by
    have h := Real.log_le_log hxpos hxle
    rwa [show (1 / 74 : ℝ) = (74 : ℝ)⁻¹ by norm_num, Real.log_inv] at h
  have hL : 2 < -2 * Real.log (rel_eps / 3.7) := by nlinarith [log_74_gt_one]
  set L : ℝ := -2 * Real.log (rel_eps / 3.7) with hLdef
  have hLpos : 0 < L := by linarith
  have hseed : colebrook_white_complete_turbulence rel_eps = (L ^ 2)⁻¹ := by
    unfold colebrook_white_complete_turbulence
    rw [← hLdef, zpow_neg_two_eq]
  have hsqrt : Real.sqrt (colebrook_white_complete_turbulence rel_eps) = L⁻¹ := by
    rw [hseed, Real.sqrt_inv, Real.sqrt_sq hLpos.le]
  have hLinv : 0 < L⁻¹ := inv_pos.mpr hLpos
  have hdpos : 0 < 2.51 / ((1e12 : ℝ) * L⁻¹) :=
    div_pos (by norm_num) (mul_pos (by norm_num) hLinv)
  have hlog10 := log_10_gt_two
  have hlog10pos : 0 < Real.log 10 := by linarith
  have hmono : Real.log (rel_eps / 3.7) ≤
      Real.log (rel_eps / 3.7 + 2.51 / ((1e12 : ℝ) * L⁻¹)) :=
    Real.log_le_log hxpos (by linarith)
  have hlx : Real.log (rel_eps / 3.7) = -(L / 2) := by rw [hLdef]; ring
  unfold colebrook_white
  rw [hsqrt, one_div, inv_inv, ← Real.log_div_log]
  have hkey : -(L / Real.log 10) / 2 ≤
      Real.log (rel_eps / 3.7 + 2.51 / ((1e12 : ℝ) * L⁻¹)) / Real.log 10 := by
    have h2 := (div_le_div_iff_of_pos_right hlog10pos).mpr hmono
    calc -(L / Real.log 10) / 2 = -(L / 2) / Real.log 10 := by ring
      _ = Real.log (rel_eps / 3.7) / Real.log 10 := by rw [hlx]
      _ ≤ _ := h2
  have hdiv : L / Real.log 10 < L / 2 :=
    div_lt_div_of_pos_left hLpos (by norm_num) hlog10
  linarith [hkey, hdiv, hL]

/-! ### Claim theorems -/

/-- Claim C1 (code bug): the head functions do not compute the velocity head
`(Q/area)^2/(2g)`; the source stores `(Q/area_1)**2` in the local `v` and then
squares it again, so `head_1(1)` contains the fourth power `(1/area_1)^4/(2g)`
and differs from the value the claim specifies. -/
theorem head_velocity_term_fourth_power :
    head_1 1 = p_1 / (RHO * G) + ((1 / area_1) ^ 2) ^ 2 / (2 * G) + z_1 ∧
    head_1 1 ≠ p_1 / (RHO * G) + (1 / area_1) ^ 2 / (2 * G) + z_1 := by
  constructor
  · rfl
  · unfold head_1 p_1 area_1 z_1 RHO G
    norm_num

/-- Claim C2 (code bug): substituting the complete-turbulence seed into the
Colebrook-White residual at `Re = 1e12`, `rel_eps = 0.05` leaves a residual
greater than `1`, not within `1e-6` of zero: the seed uses `np.log` while the
residual uses `np.log10`. -/
theorem seed_residual_not_small :
    1 < colebrook_white (colebrook_white_complete_turbulence 0.05) 1e12 0.05 ∧
    ¬ |colebrook_white (colebrook_white_complete_turbulence 0.05) 1e12 0.05| ≤ 1e-6 := by
  have h := seed_residual_gt_one 0.05 (by norm_num) (by norm_num)
  refine ⟨h, fun hc => ?_⟩
  have h2 := (abs_le.mp hc).2
  linarith

/-- Claim C3 (code bug): `colebrook_white_complete_turbulence` is computed with
the natural logarithm (`np.log`), so at `rel_eps = 0.05` its value differs from
the base-10 closed form `(-2*log10(rel_eps/3.7))^(-2)` the claim states. -/
theorem complete_turbulence_uses_natural_log :
    colebrook_white_complete_turbulence 0.05 = (-2 * Real.log (0.05 / 3.7)) ^ (-2 : ℤ) ∧
    colebrook_white_complete_turbulence 0.05 ≠ (-2 * Real.logb 10 (0.05 / 3.7)) ^ (-2 : ℤ) := by
  have hc := log_74_gt_one
  have hl := log_10_gt_two
  constructor
  · rfl
  · unfold colebrook_white_complete_turbulence
    rw [show (0.05 : ℝ) / 3.7 = 1 / 74 by norm_num, one_div, ← Real.log_div_log,
      Real.log_inv, zpow_neg_two_eq, zpow_neg_two_eq]
    rw [show -2 * -Real.log 74 = 2 * Real.log 74 by ring,
      show -2 * (-Real.log 74 / Real.log 10) = 2 * Real.log 74 / Real.log 10 by ring]
    have hBpos : 0 < 2 * Real.log 74 / Real.log 10 :=
      div_pos (by linarith) (by linarith)
    have hBA : 2 * Real.log 74 / Real.log 10 < 2 * Real.log 74 :=
      div_lt_self (by linarith) (by linarith)
    exact ne_of_lt (inv_sq_lt_inv_sq _ _ hBpos hBA)

/-- Claim C4 (code bug): inside `head_f` the local `v` holds `(Q/area_pipe)**2`,
so the Reynolds number `RHO*v*d_pipe/MU` is quadratic in `Q`, not linear
(`head_f_re 2 = 4*head_f_re 1 ≠ 2*head_f_re 1`), and the returned head loss
contains the fourth power `((Q/area_pipe)^2)^2`, not the square. -/
theorem head_f_reynolds_not_linear :
    head_f_re 2 = 4 * head_f_re 1 ∧
    head_f_re 2 ≠ 2 * head_f_re 1 ∧
    ∀ rootSolve : RootSolve,
      head_f rootSolve 2 =
        length / d_pipe * ((2 / area_pipe) ^ 2) ^ 2 / (2 * G) *
          friction_factor rootSolve (head_f_re 2) rel_eps_pipe := by
  have hpos : 0 < head_f_re 1 := by
    unfold head_f_re head_f_v area_pipe RHO d_pipe MU
    positivity
  have h4 : head_f_re 2 = 4 * head_f_re 1 := by
    unfold head_f_re head_f_v
    ring
  refine ⟨h4, ?_, ?_⟩
  · rw [h4]
    intro hcon
    linarith
  · intro rootSolve
    rfl

/-- Claim C5 (corrected): the source `friction_factor` performs no input
validation whatsoever — for `Re ≤ 0` or `rel_eps ≤ 0` it still seeds with the
complete-turbulence value and returns whatever the root finder produces; no
`InvalidInput` is raised. -/
theorem friction_factor_no_validation (rootSolve : RootSolve) (re rel_eps : ℝ)
    (_h : re ≤ 0 ∨ rel_eps ≤ 0) :
    friction_factor rootSolve re rel_eps =
      rootSolve (fun f => colebrook_white f re rel_eps)
        (colebrook_white_complete_turbulence rel_eps) := rfl

/-- Witness for C5: at `Re = -1`, `rel_eps = 0.05` the source solve is still
attempted and returns the root finder's output. -/
theorem friction_factor_no_validation_witness :
    friction_factor (fun _ x0 => x0) (-1) 0.05 =
      (fun _ x0 => x0 : RootSolve) (fun f => colebrook_white f (-1) 0.05)
        (colebrook_white_complete_turbulence 0.05) :=
  friction_factor_no_validation (fun _ x0 => x0) (-1) 0.05 (Or.inl (by norm_num))

/-- Counterexample navigation for C5: the spec-modelled validating solver rejects
`Re = -1` with `InvalidInput`, but the source `friction_factor` (here run with a
root finder that returns its initial guess) returns a numerical result — the
complete-turbulence seed — contradicting "raises InvalidInput and never returns
a numerical result". -/
theorem friction_factor_validation_counterexample :
    friction_factor_validated (fun _ x0 => x0) (-1) 0.05 =
      Except.error InvalidInput.nonPositiveReynolds ∧
    friction_factor (fun _ x0 => x0) (-1) 0.05 =
      colebrook_white_complete_turbulence 0.05 := by
  constructor
  · unfold friction_factor_validated
    rw [if_pos (by norm_num : (-1 : ℝ) ≤ 0)]
  · rfl

/-- Claim C6 (corrected): there is no penalty translation at the
residual-evaluation boundary.  For every out-of-domain trial `f ≤ 0` the
Colebrook-White residual just evaluates its formula — under the embedding's
total-function conventions it collapses to `2*log10(rel_eps/3.7)`, a value
independent of `f` and `Re` and not a large finite penalty. -/
theorem colebrook_white_no_penalty (f re rel_eps : ℝ) (hf : f ≤ 0) :
    colebrook_white f re rel_eps = 2 * Real.logb 10 (rel_eps / 3.7) :=
  colebrook_white_of_nonpos f re rel_eps hf

/-- Witness for C6 at the concrete out-of-domain trial `f = -1`. -/
theorem colebrook_white_no_penalty_witness :
    colebrook_white (-1) 5000 0.05 = 2 * Real.logb 10 (0.05 / 3.7) :=
  colebrook_white_no_penalty (-1) 5000 0.05 (by norm_num)

/-- Counterexample for C6: at the out-of-domain trial `f = -1` (with
`Re = 5000`, `rel_eps = 0.05`) the residual evaluates to a small negative number
(between `-4` and `0`), not a large finite penalty value. -/
theorem colebrook_white_out_of_domain_counterexample :
    -4 < colebrook_white (-1) 5000 0.05 ∧ colebrook_white (-1) 5000 0.05 < 0 := by
  have hv := colebrook_white_of_nonpos (-1) 5000 0.05 (by norm_num)
  rw [hv, show (0.05 : ℝ) / 3.7 = 1 / 74 by norm_num, one_div, ← Real.log_div_log,
    Real.log_inv]
  have hc1 := log_74_gt_one
  have hl := log_10_gt_two
  have hc2 : Real.log 74 < 2 * Real.log 10 := by
    have h100 : Real.log 74 < Real.log 100 := Real.log_lt_log (by norm_num) (by norm_num)
    have h10sq : Real.log 100 = 2 * Real.log 10 := by
      rw [show (100 : ℝ) = 10 ^ (2 : ℕ) by norm_num, Real.log_pow]
      norm_num
    linarith
  have hnd : -Real.log 74 / Real.log 10 = -(Real.log 74 / Real.log 10) := neg_div _ _
  have hfrac : Real.log 74 / Real.log 10 < 2 := (div_lt_iff₀ (by linarith)).mpr (by linarith)
  have hfracpos : 0 < Real.log 74 / Real.log 10 := div_pos (by linarith) (by linarith)
  rw [hnd]
  constructor
  · linarith
  · linarith

/-- Claim C7: the energy residual is exactly `head_1(Q) - head_2(Q) - head_f(Q)`,
for every trial flow rate and any root-finding primitive used inside `head_f`. -/
theorem energy_equation_decomposition (rootSolve : RootSolve) (Q : ℝ) :
    energy_equation rootSolve Q = head_1 Q - head_2 Q - head_f rootSolve Q := rfl

/-- Claim C8: the friction-factor solve is a pure function of its inputs — with
the same root-finding primitive, equal Reynolds numbers and equal relative
roughnesses give equal results; no hidden state influences the answer. -/
theorem friction_factor_deterministic (rootSolve : RootSolve)
    (re₁ eps₁ re₂ eps₂ : ℝ) (hre : re₁ = re₂) (heps : eps₁ = eps₂) :
    friction_factor rootSolve re₁ eps₁ = friction_factor rootSolve re₂ eps₂ := by
  rw [hre, heps]

/-- Witness for C8 at the spec's reference query `Re = 5000`, `rel_eps = 0.05`. -/
theorem friction_factor_deterministic_witness :
    friction_factor (fun _ x0 => x0) 5000 0.05 =
      friction_factor (fun _ x0 => x0) 5000 0.05 :=
  friction_factor_deterministic (fun _ x0 => x0) 5000 0.05 5000 0.05 rfl rfl

lemma head_1_even (Q : ℝ) : head_1 (-Q) = head_1 Q := by
  unfold head_1; ring

lemma head_2_even (Q : ℝ) : head_2 (-Q) = head_2 Q := by
  unfold head_2; ring

lemma head_f_v_even (Q : ℝ) : head_f_v (-Q) = head_f_v Q := by
  unfold head_f_v; ring

lemma head_f_re_even (Q : ℝ) : head_f_re (-Q) = head_f_re Q := by
  unfold head_f_re; rw [head_f_v_even]

lemma head_f_even (rootSolve : RootSolve) (Q : ℝ) :
    head_f rootSolve (-Q) = head_f rootSolve Q := by
  unfold head_f; rw [head_f_v_even, head_f_re_even]

/-- Claim C9: the energy residual is an even function of the trial flow rate —
`Q` enters `head_1`, `head_2` and `head_f` only through `(Q/area)^2`, so the
root finder cannot distinguish forward from reverse flow. -/
theorem energy_equation_even (rootSolve : RootSolve) (Q : ℝ) :
    energy_equation rootSolve (-Q) = energy_equation rootSolve Q := by
  unfold energy_equation
  rw [head_1_even, head_2_even, head_f_even]

/-- Claim C10: since the inlet and outlet areas and elevations coincide, the
(identically mistranscribed) velocity-head terms cancel exactly and
`head_1(Q) - head_2(Q)` is the constant `(p_1 - p_2)/(RHO*G)`, independent of `Q`. -/
theorem head_difference_constant (Q : ℝ) :
    head_1 Q - head_2 Q = (p_1 - p_2) / (RHO * G) := by
  unfold head_1 head_2 p_1 p_2 area_1 area_2 z_1 z_2 RHO G
  ring
